import Mathlib

/-!
Verification of the colorimetric analysis and decision engine of the
textile-qc-app repository, shallowly embedded from the Python sources
(app/pipeline/runner.py, app/analysis/color/*.py).  Scores in the
decision engine are embedded as rationals; the colorimetric formulas,
which involve cube roots and square roots, are embedded over the reals.
-/

namespace TextileQC

/-! ## Decision engine data model (app/pipeline/runner.py)

The Python code passes a `results` dict and a `QCSettings` object.
`calculate_comprehensive_scores` reads `results['color_metrics']`
(possibly lacking the `mean_de76` key when the color unit raised),
`results['pattern_metrics']` (`ssim` key, default 1.0) and
`results['pattern_repetition']` (`status` key).  Missing dict keys are
embedded as `Option`; only the fields that the scoring code reads are
modelled. -/

/-- The `metrics` sub-dict produced by `run_comprehensive_color_analysis`:
`mean_de76` is absent when the unit raised, `status` is always set. -/
structure ColorMetrics where
  mean_de76 : Option ℚ
  status : String
deriving DecidableEq

/-- The `metrics` sub-dict produced by `run_comprehensive_pattern_analysis`. -/
structure PatternMetrics where
  ssim : Option ℚ
  status : String
deriving DecidableEq

/-- The dict produced by `run_comprehensive_repetition_analysis`;
only its `status` entry is read by the scoring code. -/
structure RepetitionResults where
  status : String
deriving DecidableEq

/-- The fields of the QCSettings object read by
`calculate_comprehensive_scores` (enable flags and score thresholds). -/
structure QCSettings where
  enable_color_unit : Bool
  enable_pattern_unit : Bool
  enable_pattern_repetition : Bool
  color_score_multiplier : ℚ
  color_score_threshold : ℚ
  pattern_score_threshold : ℚ
  overall_score_threshold : ℚ
deriving DecidableEq

/-- The entries of the pipeline `results` dict that the scoring code
reads; a unit's entry is `none` when that unit never ran. -/
structure AnalysisResults where
  color_metrics : Option ColorMetrics
  pattern_metrics : Option PatternMetrics
  pattern_repetition : Option RepetitionResults
deriving DecidableEq

/-- The outputs written back into `results` by
`calculate_comprehensive_scores` (runner.py lines 685-687, 701). -/
structure Scores where
  color_score : ℚ
  pattern_score : ℚ
  overall_score : ℚ
  decision : String
deriving DecidableEq

/-- Embedding of `calculate_comprehensive_scores` (runner.py lines 659-701).
Mirrors the source line by line: the color score defaults the missing
`mean_de76` to 0 and the missing `ssim` to 1.0, the repetition flags are
set only for the literal statuses FAIL and CONDITIONAL, and the decision
chain tests ACCEPT first, then the repetition veto, then the conditional
branch. -/
def calculate_comprehensive_scores (results : AnalysisResults)
    (settings : QCSettings) : Scores :=
  let color_score : ℚ :=
    match settings.enable_color_unit, results.color_metrics with
    | true, some m => max 0 (100 - m.mean_de76.getD 0 * settings.color_score_multiplier)
    | _, _ => 100
  let pattern_score : ℚ :=
    match settings.enable_pattern_unit, results.pattern_metrics with
    | true, some m => m.ssim.getD 1 * 100
    | _, _ => 100
  let repFlags : Bool × Bool :=
    match settings.enable_pattern_repetition, results.pattern_repetition with
    | true, some r =>
        if r.status = "FAIL" then (false, false)
        else if r.status = "CONDITIONAL" then (true, true)
        else (true, false)
    | _, _ => (true, false)
  let pattern_rep_ok := repFlags.1
  let pattern_rep_conditional := repFlags.2
  let overall_score := (color_score + pattern_score) / 2
  let decision : String :=
    if color_score ≥ settings.color_score_threshold ∧
       pattern_score ≥ settings.pattern_score_threshold ∧
       pattern_rep_ok = true ∧ pattern_rep_conditional = false then "ACCEPT"
    else if pattern_rep_ok = false then "REJECT"
    else if overall_score ≥ settings.overall_score_threshold ∨
            pattern_rep_conditional = true then "CONDITIONAL ACCEPT"
    else "REJECT"
  ⟨color_score, pattern_score, overall_score, decision⟩

/-- The decision policy exactly as worded in spec section 4.5, for
comparison with the source's branch order: 1. repetition FAIL rejects;
2. else both scores at threshold and repetition PASS accepts;
3. else overall at threshold or repetition CONDITIONAL conditionally
accepts; 4. else reject. -/
def specDecision (color_score pattern_score overall_score : ℚ)
    (rep_status : String) (cth pth oth : ℚ) : String :=
  if rep_status = "FAIL" then "REJECT"
  else if color_score ≥ cth ∧ pattern_score ≥ pth ∧ rep_status = "PASS" then "ACCEPT"
  else if overall_score ≥ oth ∨ rep_status = "CONDITIONAL" then "CONDITIONAL ACCEPT"
  else "REJECT"

/-- Control-flow model of `run_comprehensive_color_analysis`
(runner.py lines 145-241): an exception raised anywhere inside the unit
body is caught at the unit boundary (lines 237-240), and the returned
metrics then carry only `status = ERROR`, with no `mean_de76` entry. -/
def run_comprehensive_color_analysis (raised : Bool)
    (computed : ColorMetrics) : ColorMetrics :=
  if raised then { mean_de76 := none, status := "ERROR" } else computed

/-- Control-flow model of `run_comprehensive_repetition_analysis`
(runner.py lines 376-496): an exception raised inside the unit body is
caught at the unit boundary (lines 492-494) and the returned dict then
carries `status = ERROR`. -/
def run_comprehensive_repetition_analysis (raised : Bool)
    (computed : RepetitionResults) : RepetitionResults :=
  if raised then { status := "ERROR" } else computed

/-- Control-flow model of `run_analysis_pipeline` (runner.py lines 17-142):
the try block ends in `calculate_comprehensive_scores`; an exception that
escapes all unit boundaries reaches the pipeline-level handler
(lines 133-140), which zeroes all three scores and sets the decision to
ERROR.  `escaped` models whether such an exception occurred. -/
def run_analysis_pipeline (escaped : Bool) (results : AnalysisResults)
    (settings : QCSettings) : Scores :=
  if escaped then ⟨0, 0, 0, "ERROR"⟩
  else calculate_comprehensive_scores results settings

/-- Every decision produced by the scoring code is one of ACCEPT,
CONDITIONAL ACCEPT, REJECT — never ERROR. -/
lemma calc_decision_mem (r : AnalysisResults) (s : QCSettings) :
    (calculate_comprehensive_scores r s).decision = "ACCEPT" ∨
    (calculate_comprehensive_scores r s).decision = "CONDITIONAL ACCEPT" ∨
    (calculate_comprehensive_scores r s).decision = "REJECT" := by
  simp only [calculate_comprehensive_scores]
  split_ifs <;> simp

/-- The scoring code never outputs the ERROR decision itself. -/
lemma calc_decision_ne_error (r : AnalysisResults) (s : QCSettings) :
    (calculate_comprehensive_scores r s).decision ≠ "ERROR" := by
  rcases calc_decision_mem r s with h | h | h <;> rw [h] <;> decide

/-- C1: for every run with all three units enabled and repetition status in
{PASS, CONDITIONAL, FAIL}, the decision of `calculate_comprehensive_scores`
equals the spec's fixed-priority-order policy (FAIL vetoes; then both
scores at threshold with repetition PASS accept; then overall score at
threshold or repetition CONDITIONAL conditionally accepts; else reject)
applied to the computed scores and configured thresholds. -/
theorem decision_follows_spec_priority_order
    (settings : QCSettings) (cm : ColorMetrics) (pm : PatternMetrics)
    (st : String)
    (hc : settings.enable_color_unit = true)
    (hp : settings.enable_pattern_unit = true)
    (hr : settings.enable_pattern_repetition = true)
    (hst : st = "PASS" ∨ st = "CONDITIONAL" ∨ st = "FAIL") :
    (calculate_comprehensive_scores ⟨some cm, some pm, some ⟨st⟩⟩ settings).decision =
      specDecision
        (calculate_comprehensive_scores ⟨some cm, some pm, some ⟨st⟩⟩ settings).color_score
        (calculate_comprehensive_scores ⟨some cm, some pm, some ⟨st⟩⟩ settings).pattern_score
        (calculate_comprehensive_scores ⟨some cm, some pm, some ⟨st⟩⟩ settings).overall_score
        st settings.color_score_threshold settings.pattern_score_threshold
        settings.overall_score_threshold := by
  rcases hst with h | h | h <;> subst h <;>
    simp only [calculate_comprehensive_scores, specDecision, hc, hp, hr] <;>
    split_ifs <;> (simp_all; try linarith)

/-- Witness for C1 at the spec's literal scenario: mean ΔE76 = 2.5 with
multiplier 2 gives color score 95, SSIM 0.96 gives pattern score 96,
repetition PASS, thresholds (90, 90, 85). -/
theorem decision_follows_spec_priority_order_witness :
    ("PASS" = "PASS" ∨ "PASS" = "CONDITIONAL" ∨ "PASS" = "FAIL") ∧
    (calculate_comprehensive_scores
        ⟨some ⟨some (5/2), "PASS"⟩, some ⟨some (24/25), "PASS"⟩, some ⟨"PASS"⟩⟩
        ⟨true, true, true, 2, 90, 90, 85⟩).decision =
      specDecision
        (calculate_comprehensive_scores
          ⟨some ⟨some (5/2), "PASS"⟩, some ⟨some (24/25), "PASS"⟩, some ⟨"PASS"⟩⟩
          ⟨true, true, true, 2, 90, 90, 85⟩).color_score
        (calculate_comprehensive_scores
          ⟨some ⟨some (5/2), "PASS"⟩, some ⟨some (24/25), "PASS"⟩, some ⟨"PASS"⟩⟩
          ⟨true, true, true, 2, 90, 90, 85⟩).pattern_score
        (calculate_comprehensive_scores
          ⟨some ⟨some (5/2), "PASS"⟩, some ⟨some (24/25), "PASS"⟩, some ⟨"PASS"⟩⟩
          ⟨true, true, true, 2, 90, 90, 85⟩).overall_score
        "PASS" 90 90 85 :=
  ⟨Or.inl rfl,
    decision_follows_spec_priority_order ⟨true, true, true, 2, 90, 90, 85⟩
      ⟨some (5/2), "PASS"⟩ ⟨some (24/25), "PASS"⟩ "PASS" rfl rfl rfl (Or.inl rfl)⟩

/-- C2 counterexample: when the Color unit raises (so its metrics carry
only status ERROR and no mean ΔE76), the scoring code defaults the
missing mean ΔE76 to 0, so the color score becomes 100 — not 0 as the
claim states. -/
theorem color_unit_error_score_not_zero :
    (calculate_comprehensive_scores
        ⟨some (run_comprehensive_color_analysis true ⟨some 5, "PASS"⟩),
         some ⟨some (24/25), "PASS"⟩, some ⟨"PASS"⟩⟩
        ⟨true, true, true, 2, 90, 90, 85⟩).color_score = 100 ∧
    (100 : ℚ) ≠ 0 := by
  constructor
  · norm_num [calculate_comprehensive_scores, run_comprehensive_color_analysis]
  · norm_num

/-- C2 (amended): if an exception is raised inside the Color unit while
the Pattern and Repetition units succeed, the pipeline still computes a
decision from the Pattern and Repetition results and that decision is
never ERROR; however the Color unit's score defaults to 100 (the missing
mean ΔE76 is read as 0), not to 0. -/
theorem color_unit_error_decision_computable
    (settings : QCSettings) (cm : ColorMetrics) (pm : PatternMetrics)
    (rep : RepetitionResults)
    (hc : settings.enable_color_unit = true) :
    (calculate_comprehensive_scores
        ⟨some (run_comprehensive_color_analysis true cm), some pm, some rep⟩
        settings).color_score = 100 ∧
    (calculate_comprehensive_scores
        ⟨some (run_comprehensive_color_analysis true cm), some pm, some rep⟩
        settings).decision ≠ "ERROR" := by
  refine ⟨?_, calc_decision_ne_error _ _⟩
  simp [calculate_comprehensive_scores, run_comprehensive_color_analysis, hc]

/-- Witness for C2's amended theorem at a concrete run. -/
theorem color_unit_error_decision_computable_witness :
    (QCSettings.enable_color_unit ⟨true, true, true, 2, 90, 90, 85⟩ = true) ∧
    ((calculate_comprehensive_scores
        ⟨some (run_comprehensive_color_analysis true ⟨some 5, "PASS"⟩),
         some ⟨some (24/25), "PASS"⟩, some ⟨"PASS"⟩⟩
        ⟨true, true, true, 2, 90, 90, 85⟩).color_score = 100 ∧
     (calculate_comprehensive_scores
        ⟨some (run_comprehensive_color_analysis true ⟨some 5, "PASS"⟩),
         some ⟨some (24/25), "PASS"⟩, some ⟨"PASS"⟩⟩
        ⟨true, true, true, 2, 90, 90, 85⟩).decision ≠ "ERROR") :=
  ⟨rfl, color_unit_error_decision_computable ⟨true, true, true, 2, 90, 90, 85⟩
    ⟨some 5, "PASS"⟩ ⟨some (24/25), "PASS"⟩ ⟨"PASS"⟩ rfl⟩

/-- C3: a degraded repetition status (ERROR from the unit's own handler,
or the initial N/A) is treated by the scoring code exactly like PASS:
the computed scores and decision are identical to those of a PASS run,
so ACCEPT stays reachable and the degraded status never by itself forces
REJECT or CONDITIONAL ACCEPT. -/
theorem degraded_repetition_status_treated_as_pass
    (results : AnalysisResults) (settings : QCSettings) (st : String)
    (hst : st = "ERROR" ∨ st = "N/A") :
    calculate_comprehensive_scores
        { results with pattern_repetition := some ⟨st⟩ } settings =
      calculate_comprehensive_scores
        { results with pattern_repetition := some ⟨"PASS"⟩ } settings := by
  rcases hst with h | h <;> subst h <;>
    cases hrep : settings.enable_pattern_repetition <;>
    simp [calculate_comprehensive_scores, hrep]

/-- Witness for C3: an ERROR repetition status produced by the unit's
exception handler yields the same scores and decision as PASS. -/
theorem degraded_repetition_status_treated_as_pass_witness :
    (("ERROR" : String) = "ERROR" ∨ ("ERROR" : String) = "N/A") ∧
    calculate_comprehensive_scores
        { color_metrics := some ⟨some (5/2), "PASS"⟩,
          pattern_metrics := some ⟨some (24/25), "PASS"⟩,
          pattern_repetition := some ⟨"ERROR"⟩ }
        ⟨true, true, true, 2, 90, 90, 85⟩ =
      calculate_comprehensive_scores
        { color_metrics := some ⟨some (5/2), "PASS"⟩,
          pattern_metrics := some ⟨some (24/25), "PASS"⟩,
          pattern_repetition := some ⟨"PASS"⟩ }
        ⟨true, true, true, 2, 90, 90, 85⟩ :=
  ⟨Or.inl rfl,
    degraded_repetition_status_treated_as_pass
      ⟨some ⟨some (5/2), "PASS"⟩, some ⟨some (24/25), "PASS"⟩, some ⟨"ERROR"⟩⟩
      ⟨true, true, true, 2, 90, 90, 85⟩ "ERROR" (Or.inl rfl)⟩

/-- C7: an exception escaping all unit boundaries (the pipeline-level
handler of `run_analysis_pipeline`) yields color, pattern and overall
scores 0 with decision ERROR, and this handler is the only way the
decision becomes ERROR: the decision is ERROR iff such an exception
escaped. -/
theorem pipeline_error_iff_escaped (escaped : Bool)
    (results : AnalysisResults) (settings : QCSettings) :
    (escaped = true →
      run_analysis_pipeline escaped results settings =
        ⟨0, 0, 0, "ERROR"⟩) ∧
    ((run_analysis_pipeline escaped results settings).decision = "ERROR" ↔
      escaped = true) := by
  cases escaped <;>
    simp [run_analysis_pipeline, calc_decision_ne_error results settings]

/-- Witness for C7 at a concrete escaped-exception run and its
implication discharged. -/
theorem pipeline_error_iff_escaped_witness :
    ((true = true →
      run_analysis_pipeline true
        ⟨none, none, none⟩ ⟨true, true, true, 2, 90, 90, 85⟩ =
          ⟨0, 0, 0, "ERROR"⟩) ∧
     ((run_analysis_pipeline true
        ⟨none, none, none⟩ ⟨true, true, true, 2, 90, 90, 85⟩).decision = "ERROR" ↔
       true = true)) ∧
    run_analysis_pipeline true
        ⟨none, none, none⟩ ⟨true, true, true, 2, 90, 90, 85⟩ =
      ⟨0, 0, 0, "ERROR"⟩ :=
  ⟨pipeline_error_iff_escaped true ⟨none, none, none⟩ ⟨true, true, true, 2, 90, 90, 85⟩,
   (pipeline_error_iff_escaped true ⟨none, none, none⟩
      ⟨true, true, true, 2, 90, 90, 85⟩).1 rfl⟩

/-! ## Whiteness / yellowness evaluator (app/analysis/color/whiteness.py)
and CMYK generation (app/analysis/color/conversions.py), over ℝ.
XYZ and RGB triples are embedded as functions `Fin 3 → ℝ`
(index 0 = X or R, 1 = Y or G, 2 = Z or B). -/

/-- Denominator of the chromaticity coordinates in `cie_whiteness_tint`
(whiteness.py line 24): the XYZ sum clamped below by 1e-8. -/
noncomputable def whiteness_sum_denom (xyz : Fin 3 → ℝ) : ℝ :=
  max (xyz 0 + xyz 1 + xyz 2) 1e-8

/-- `cie_whiteness_tint` (whiteness.py lines 8-36): CIE whiteness and
tint for D65/10 degrees with reference chromaticity (0.3138, 0.3310). -/
noncomputable def cie_whiteness_tint (xyz : Fin 3 → ℝ) : ℝ × ℝ :=
  let x := xyz 0 / whiteness_sum_denom xyz
  let y := xyz 1 / whiteness_sum_denom xyz
  (xyz 1 + 800 * (0.3138 - x) + 1700 * (0.3310 - y),
   900 * (0.3138 - x) - 650 * (0.3310 - y))

/-- Denominator in `astm_e313_yellowness` (whiteness.py line 57):
Y clamped below by 1e-8. -/
noncomputable def astm_denom (xyz : Fin 3 → ℝ) : ℝ := max (xyz 1) 1e-8

/-- `astm_e313_yellowness` (whiteness.py lines 39-59): ASTM E313
yellowness index with D65/10-degree coefficients. -/
noncomputable def astm_e313_yellowness (xyz : Fin 3 → ℝ) : ℝ :=
  100 * (1.3013 * xyz 0 - 1.1498 * xyz 2) / astm_denom xyz

/-- The 0-255 normalization step shared by `srgb_to_xyz` and
`rgb_to_cmyk` (conversions.py lines 22-23 and 147-148): divide by 255
when the maximal component exceeds 1. -/
noncomputable def normalize_rgb (rgb : Fin 3 → ℝ) : Fin 3 → ℝ :=
  if 1 < max (max (rgb 0) (rgb 1)) (rgb 2) then fun i => rgb i / 255 else rgb

/-- The K channel of `rgb_to_cmyk` (conversions.py line 152). -/
noncomputable def cmyk_k (rgb : Fin 3 → ℝ) : ℝ :=
  1 - max (max (normalize_rgb rgb 0) (normalize_rgb rgb 1)) (normalize_rgb rgb 2)

/-- Denominator of the C, M, Y channels in `rgb_to_cmyk`
(conversions.py line 155): 1 - K clamped below by 1e-10. -/
noncomputable def cmyk_denom (rgb : Fin 3 → ℝ) : ℝ :=
  max (1 - cmyk_k rgb) 1e-10

/-- `rgb_to_cmyk` (conversions.py lines 134-161). -/
noncomputable def rgb_to_cmyk (rgb : Fin 3 → ℝ) : Fin 4 → ℝ :=
  let r := normalize_rgb rgb 0
  let g := normalize_rgb rgb 1
  let b := normalize_rgb rgb 2
  let k := cmyk_k rgb
  ![(1 - r - k) / cmyk_denom rgb, (1 - g - k) / cmyk_denom rgb,
    (1 - b - k) / cmyk_denom rgb, k]

/-- Formalization of the C6 claim's wording: a denominator clamped from
below by the epsilon 1e-10. -/
noncomputable def claim_clamped_denom (raw : ℝ) : ℝ := max raw 1e-10

/-- C6 counterexample: the whiteness and yellowness denominators use the
epsilon 1e-8, not 1e-10 as the claim states: at XYZ = (0, 0, 0) the
yellowness and chromaticity denominators equal 1e-8, while the claim's
1e-10 clamp of the same raw denominator would give 1e-10. -/
theorem whiteness_epsilon_not_1e10 :
    astm_denom ![0, 0, 0] = 1e-8 ∧
    whiteness_sum_denom ![0, 0, 0] = 1e-8 ∧
    claim_clamped_denom 0 = 1e-10 ∧ (1e-8 : ℝ) ≠ 1e-10 := by
  refine ⟨?_, ?_, ?_, by norm_num⟩ <;>
    norm_num [astm_denom, whiteness_sum_denom, claim_clamped_denom]

/-- C6 (amended): the whiteness/yellowness denominators are clamped below
by 1e-8 and the CMYK denominator by 1e-10, so for every XYZ and RGB input
(including Y = 0 and K = 1) no division branch ever sees a denominator
smaller than 1e-10; the whiteness/yellowness ones are never below 1e-8. -/
theorem denominators_never_below_epsilon (xyz rgb : Fin 3 → ℝ) :
    1e-8 ≤ whiteness_sum_denom xyz ∧ 1e-8 ≤ astm_denom xyz ∧
    1e-10 ≤ cmyk_denom rgb ∧
    1e-10 ≤ whiteness_sum_denom xyz ∧ 1e-10 ≤ astm_denom xyz := by
  refine ⟨le_max_right _ _, le_max_right _ _, le_max_right _ _, ?_, ?_⟩ <;>
    exact le_trans (by norm_num) (le_max_right _ _)

/-- C9: for every mean XYZ triple clearing the epsilon clamps,
`cie_whiteness_tint` returns W = Y + 800(0.3138 - x) + 1700(0.3310 - y)
and T = 900(0.3138 - x) - 650(0.3310 - y) with chromaticity
x = X/(X+Y+Z), y = Y/(X+Y+Z), and `astm_e313_yellowness` returns
YI = 100(1.3013 X - 1.1498 Z)/Y. -/
theorem whiteness_yellowness_formulas (xyz : Fin 3 → ℝ)
    (hsum : 1e-8 ≤ xyz 0 + xyz 1 + xyz 2) (hY : 1e-8 ≤ xyz 1) :
    cie_whiteness_tint xyz =
      (xyz 1 + 800 * (0.3138 - xyz 0 / (xyz 0 + xyz 1 + xyz 2))
             + 1700 * (0.3310 - xyz 1 / (xyz 0 + xyz 1 + xyz 2)),
       900 * (0.3138 - xyz 0 / (xyz 0 + xyz 1 + xyz 2))
         - 650 * (0.3310 - xyz 1 / (xyz 0 + xyz 1 + xyz 2))) ∧
    astm_e313_yellowness xyz =
      100 * (1.3013 * xyz 0 - 1.1498 * xyz 2) / xyz 1 := by
  have h1 : whiteness_sum_denom xyz = xyz 0 + xyz 1 + xyz 2 :=
    max_eq_left hsum
  have h2 : astm_denom xyz = xyz 1 := max_eq_left hY
  constructor
  · simp only [cie_whiteness_tint, h1]
  · simp only [astm_e313_yellowness, h2]

/-- Witness for C9 at the concrete mean XYZ triple (50, 50, 50). -/
theorem whiteness_yellowness_formulas_witness :
    ((1e-8 : ℝ) ≤ (![50, 50, 50] : Fin 3 → ℝ) 0 + ![50, 50, 50] 1 + ![50, 50, 50] 2) ∧
    ((1e-8 : ℝ) ≤ (![50, 50, 50] : Fin 3 → ℝ) 1) ∧
    (cie_whiteness_tint ![50, 50, 50] =
      ((![50, 50, 50] : Fin 3 → ℝ) 1
          + 800 * (0.3138 - ![50, 50, 50] 0 / (![50, 50, 50] 0 + ![50, 50, 50] 1 + ![50, 50, 50] 2))
          + 1700 * (0.3310 - ![50, 50, 50] 1 / (![50, 50, 50] 0 + ![50, 50, 50] 1 + ![50, 50, 50] 2)),
       900 * (0.3138 - (![50, 50, 50] : Fin 3 → ℝ) 0 / (![50, 50, 50] 0 + ![50, 50, 50] 1 + ![50, 50, 50] 2))
         - 650 * (0.3310 - ![50, 50, 50] 1 / (![50, 50, 50] 0 + ![50, 50, 50] 1 + ![50, 50, 50] 2))) ∧
     astm_e313_yellowness ![50, 50, 50] =
      100 * (1.3013 * (![50, 50, 50] : Fin 3 → ℝ) 0 - 1.1498 * ![50, 50, 50] 2) / ![50, 50, 50] 1) :=
  ⟨by norm_num, by norm_num,
    whiteness_yellowness_formulas ![50, 50, 50] (by norm_num) (by norm_num)⟩

/-! ## Color space conversions (app/analysis/color/conversions.py) -/

/-- Modelled from the spec: the canonical sRGB to XYZ 3x3 matrix
(spec section 4.1).  The constants module `app/core/constants.py` that
defines SRGB_TO_XYZ_MATRIX is not under src/. -/
noncomputable def SRGB_TO_XYZ_MATRIX : Matrix (Fin 3) (Fin 3) ℝ :=
  !![0.4124564, 0.3575761, 0.1804375;
     0.2126729, 0.7151522, 0.0721750;
     0.0193339, 0.1191920, 0.9503041]

/-- Per-channel sRGB inverse gamma (conversions.py lines 26-30):
linear below the 0.04045 threshold, power 2.4 above. -/
noncomputable def srgb_linearize (c : ℝ) : ℝ :=
  if c ≤ 0.04045 then c / 12.92 else ((c + 0.055) / 1.055) ^ (2.4 : ℝ)

/-- `srgb_to_xyz` for one pixel (conversions.py lines 9-35):
0-255 normalization, linearization, then the sRGB matrix.
`np.tensordot(linear, M.T, axes=([-1],[0]))` is `M.mulVec linear`
on each pixel. -/
noncomputable def srgb_to_xyz (rgb : Fin 3 → ℝ) : Fin 3 → ℝ :=
  SRGB_TO_XYZ_MATRIX.mulVec fun i => srgb_linearize (normalize_rgb rgb i)

/-- The piecewise function `f` inside `xyz_to_lab`
(conversions.py lines 55-57), with breakpoint (6/29)^3. -/
noncomputable def labF (t : ℝ) : ℝ :=
  if ((6 : ℝ)/29) ^ (3 : ℕ) < t then t ^ ((1 : ℝ)/3)
  else t / (3 * ((6 : ℝ)/29) ^ (2 : ℕ)) + 4/29

/-- `xyz_to_lab` for one pixel (conversions.py lines 38-65). -/
noncomputable def xyz_to_lab (xyz wp : Fin 3 → ℝ) : Fin 3 → ℝ :=
  let fx := labF (xyz 0 / wp 0)
  let fy := labF (xyz 1 / wp 1)
  let fz := labF (xyz 2 / wp 2)
  ![116 * fy - 16, 500 * (fx - fy), 200 * (fy - fz)]

/-- The piecewise inverse `f_inv` inside `lab_to_xyz`
(conversions.py lines 90-91), with breakpoint 6/29. -/
noncomputable def labFinv (t : ℝ) : ℝ :=
  if (6 : ℝ)/29 < t then t ^ (3 : ℕ)
  else 3 * ((6 : ℝ)/29) ^ (2 : ℕ) * (t - 4/29)

/-- `lab_to_xyz` for one pixel (conversions.py lines 68-97). -/
noncomputable def lab_to_xyz (lab wp : Fin 3 → ℝ) : Fin 3 → ℝ :=
  let fy := (lab 0 + 16) / 116
  let fx := lab 1 / 500 + fy
  let fz := fy - lab 2 / 200
  ![wp 0 * labFinv fx, wp 1 * labFinv fy, wp 2 * labFinv fz]

/-- `f_inv` is a two-sided exact inverse of `f` on all of ℝ: the cube
root branch inverts the cube branch above the breakpoint, and the two
linear branches invert each other below it, the breakpoints matching
exactly at t = (6/29)^3. -/
lemma labFinv_labF (t : ℝ) : labFinv (labF t) = t := by
  by_cases h : ((6 : ℝ)/29) ^ (3 : ℕ) < t
  · have ht : (0 : ℝ) < t := lt_trans (by norm_num) h
    have hgt : (6 : ℝ)/29 < t ^ ((1 : ℝ)/3) := by
      have hstep : (((6 : ℝ)/29) ^ (3 : ℕ)) ^ ((1 : ℝ)/3) < t ^ ((1 : ℝ)/3) :=
        Real.rpow_lt_rpow (by positivity) h (by norm_num)
      calc (6 : ℝ)/29
          = (((6 : ℝ)/29) ^ (3 : ℕ)) ^ ((1 : ℝ)/3) := by
            rw [← Real.rpow_natCast ((6 : ℝ)/29) 3, ← Real.rpow_mul (by norm_num)]
            norm_num
        _ < t ^ ((1 : ℝ)/3) := hstep
    rw [labF, if_pos h, labFinv, if_pos hgt,
      ← Real.rpow_natCast (t ^ ((1 : ℝ)/3)) 3, ← Real.rpow_mul ht.le]
    norm_num
  · push_neg at h
    have hle : t / (3 * ((6 : ℝ)/29) ^ (2 : ℕ)) + 4/29 ≤ (6 : ℝ)/29 := by
      have hdiv : t / (3 * ((6 : ℝ)/29) ^ (2 : ℕ)) ≤ (6 : ℝ)/29 / 3 := by
        rw [div_le_iff₀ (by norm_num)]
        nlinarith
      nlinarith
    rw [labF, if_neg (not_lt.mpr h), labFinv, if_neg (not_lt.mpr hle)]
    ring

/-- Round trip XYZ → Lab → XYZ is the identity whenever the white point
has no zero component: the L, a, b linear combinations are inverted
exactly and `f_inv` cancels `f`. -/
lemma lab_xyz_roundtrip (xyz wp : Fin 3 → ℝ) (h : ∀ i, wp i ≠ 0) :
    lab_to_xyz (xyz_to_lab xyz wp) wp = xyz := by
  have hfy : (xyz_to_lab xyz wp 0 + 16) / 116 = labF (xyz 1 / wp 1) := by
    simp only [xyz_to_lab, Matrix.cons_val_zero]
    ring
  have hfx : xyz_to_lab xyz wp 1 / 500 + labF (xyz 1 / wp 1) =
      labF (xyz 0 / wp 0) := by
    simp only [xyz_to_lab, Matrix.cons_val_one, Matrix.head_cons]
    ring
  have hfz : labF (xyz 1 / wp 1) - xyz_to_lab xyz wp 2 / 200 =
      labF (xyz 2 / wp 2) := by
    simp only [xyz_to_lab, Matrix.cons_val_two, Matrix.tail_cons,
      Matrix.head_cons]
    ring
  funext i
  fin_cases i <;>
    simp only [lab_to_xyz, Matrix.cons_val_zero, Matrix.cons_val_one,
      Matrix.head_cons, Matrix.cons_val_two, Matrix.tail_cons, Fin.isValue,
      hfy, hfx, hfz, labFinv_labF]
  · exact mul_div_cancel₀ _ (h 0)
  · exact mul_div_cancel₀ _ (h 1)
  · exact mul_div_cancel₀ _ (h 2)

/-- C8: `lab_to_xyz` is the exact algebraic inverse of `xyz_to_lab`:
for every XYZ triple obtained from an RGB input and every positive white
point, Lab → XYZ ∘ XYZ → Lab reconstructs the XYZ exactly (hence well
within 1e-6 relative error). -/
theorem lab_xyz_roundtrip_from_rgb (rgb wp : Fin 3 → ℝ)
    (hwp : ∀ i, 0 < wp i) :
    lab_to_xyz (xyz_to_lab (srgb_to_xyz rgb) wp) wp = srgb_to_xyz rgb :=
  lab_xyz_roundtrip (srgb_to_xyz rgb) wp fun i => (hwp i).ne'

/-- Witness for C8 at the black pixel and the unit white point. -/
theorem lab_xyz_roundtrip_from_rgb_witness :
    (∀ i, (0 : ℝ) < (![1, 1, 1] : Fin 3 → ℝ) i) ∧
    lab_to_xyz (xyz_to_lab (srgb_to_xyz ![0, 0, 0]) ![1, 1, 1]) ![1, 1, 1] =
      srgb_to_xyz ![0, 0, 0] :=
  ⟨fun i => by fin_cases i <;> norm_num,
   lab_xyz_roundtrip_from_rgb ![0, 0, 0] ![1, 1, 1]
     fun i => by fin_cases i <;> norm_num⟩

/-- The Bradford cone-response matrix hard-coded inside `adapt_white_xyz`
(conversions.py lines 113-117). -/
noncomputable def bradfordM : Matrix (Fin 3) (Fin 3) ℝ :=
  !![0.8951, 0.2664, -0.1614;
     -0.7502, 1.7135, 0.0367;
     0.0389, -0.0685, 1.0296]

/-- `adapt_white_xyz` for one pixel (conversions.py lines 100-131):
Bradford chromatic adaptation M⁻¹ · diag(M·D / M·S) · M.
`np.tensordot(xyz, transform.T, axes=([-1],[0]))` is
`transform.mulVec xyz` on each pixel. -/
noncomputable def adapt_white_xyz (xyz src_wp dst_wp : Fin 3 → ℝ) :
    Fin 3 → ℝ :=
  let src_lms := bradfordM.mulVec src_wp
  let dst_lms := bradfordM.mulVec dst_wp
  let S := Matrix.diagonal fun i => dst_lms i / src_lms i
  (bradfordM⁻¹ * S * bradfordM).mulVec xyz

/-- The Bradford matrix is invertible: its determinant is nonzero. -/
lemma bradfordM_det_isUnit : IsUnit bradfordM.det := by
  refine isUnit_iff_ne_zero.mpr ?_
  rw [bradfordM, Matrix.det_fin_three]
  norm_num

/-- C10: Bradford adaptation to the same white point is the identity:
whenever the cone response M·W of the white point has no zero component
(so the diagonal scale is well defined), the transform collapses to
M⁻¹ · I · M = I and the XYZ input is returned exactly. -/
theorem bradford_adapt_same_white_identity (xyz W : Fin 3 → ℝ)
    (h : ∀ i, bradfordM.mulVec W i ≠ 0) :
    adapt_white_xyz xyz W W = xyz := by
  have hS : (Matrix.diagonal fun i => bradfordM.mulVec W i / bradfordM.mulVec W i) =
      (1 : Matrix (Fin 3) (Fin 3) ℝ) := by
    have hfun : (fun i => bradfordM.mulVec W i / bradfordM.mulVec W i) =
        fun _ => (1 : ℝ) := funext fun i => div_self (h i)
    rw [hfun, Matrix.diagonal_one]
  simp only [adapt_white_xyz, hS, Matrix.mul_one,
    Matrix.nonsing_inv_mul bradfordM bradfordM_det_isUnit, Matrix.one_mulVec]

/-- Witness for C10 at XYZ = (1, 2, 3) and the D65 white point. -/
theorem bradford_adapt_same_white_identity_witness :
    (∀ i, bradfordM.mulVec ![95.047, 100.0, 108.883] i ≠ 0) ∧
    adapt_white_xyz ![1, 2, 3] ![95.047, 100.0, 108.883]
        ![95.047, 100.0, 108.883] = ![1, 2, 3] := by
  have h : ∀ i, bradfordM.mulVec ![95.047, 100.0, 108.883] i ≠ 0 := by
    intro i
    fin_cases i <;>
      norm_num [bradfordM, Matrix.mulVec, Matrix.dotProduct,
        Fin.sum_univ_three]
  exact ⟨h, bradford_adapt_same_white_identity ![1, 2, 3]
    ![95.047, 100.0, 108.883] h⟩

/-! ## Metamerism assessor (app/analysis/color/metamerism.py) -/

/-- Modelled from the spec: the static white-point registry of
`app/core/constants.py`, which is not under src/.  Spec sections 2 and 3:
a registry of illuminant tristimulus triples (D65, A, TL84, ...) with
Y normalized to about 100, looked up by name. -/
noncomputable def WHITE_POINTS : List (String × (Fin 3 → ℝ)) :=
  [("D65", ![95.047, 100.0, 108.883]),
   ("A", ![109.850, 100.0, 35.585]),
   ("TL84", ![103.863, 100.0, 65.607])]

/-- The names registered in the white-point table. -/
def whitePointNames : List String := ["D65", "A", "TL84"]

/-- The name list agrees with the registry. -/
lemma whitePointNames_eq : whitePointNames = WHITE_POINTS.map Prod.fst := rfl

/-- Return record of `compute_metamerism_index` (metamerism.py
lines 61-66); the per-entry lab summary fields (lines 51-52) are
omitted, each results entry keeping its illuminant name and ΔE. -/
structure MetamerismResult where
  results : List (String × ℝ)
  metamerism_index : ℝ
  worst_case : Option (String × ℝ)
  mean_delta_e : ℝ

/-- `np.std` of a list of ΔE values: the population standard deviation
(square root of the mean squared deviation from the mean); 0 on the
empty list. -/
noncomputable def pyListStd (l : List ℝ) : ℝ :=
  Real.sqrt ((l.map fun v => (v - l.sum / l.length) ^ (2 : ℕ)).sum / l.length)

/-- One step of Python's `max(results, key=lambda x: x['delta_e'])`
(metamerism.py line 59): the running best is replaced only when the new
ΔE is strictly greater, so the first maximum encountered is kept. -/
noncomputable def pyMaxStep (acc : Option (String × ℝ)) (x : String × ℝ) :
    Option (String × ℝ) :=
  match acc with
  | none => some x
  | some b => if b.2 < x.2 then some x else some b

/-- Python's `max(results, key=lambda x: x['delta_e'])` over the results
list, `None` on the empty list (metamerism.py line 59). -/
noncomputable def pyMaxByDe (l : List (String × ℝ)) : Option (String × ℝ) :=
  l.foldl pyMaxStep none

/-- `compute_metamerism_index` (metamerism.py lines 11-66).  The loop
skips illuminant names missing from the white-point table (lines 30-32)
and otherwise appends one ΔE value and one results entry per illuminant.
The per-illuminant body (lines 34-45: Bradford adaptation of both XYZ
samples to the illuminant's white point, Lab conversion under it, mean
ΔE2000) is abstracted as the argument `de`, a function from the
illuminant name to that mean ΔE2000 value; the claims concern only how
these values are aggregated. -/
noncomputable def compute_metamerism_index (de : String → ℝ)
    (illuminants : List String) : MetamerismResult :=
  let valid := illuminants.filter fun n => whitePointNames.contains n
  let delta_e_values := valid.map de
  let results := valid.map fun n => (n, de n)
  { results := results
    metamerism_index :=
      if delta_e_values.isEmpty then 0 else pyListStd delta_e_values * 10
    worst_case := pyMaxByDe results
    mean_delta_e :=
      if delta_e_values.isEmpty then 0
      else delta_e_values.sum / delta_e_values.length }

/-- The standard deviation of the empty list is 0. -/
lemma pyListStd_nil : pyListStd [] = 0 := by
  simp [pyListStd]

/-- The standard deviation of a singleton is 0. -/
lemma pyListStd_singleton (v : ℝ) : pyListStd [v] = 0 := by
  simp [pyListStd]

/-- C4: `compute_metamerism_index` skips names absent from the
white-point table rather than failing, and its index equals 10 times the
population standard deviation of the ΔE values of the recognized
illuminants (the filtered list), which is 0 whenever fewer than 2 valid
illuminants contribute. -/
theorem metamerism_index_ten_std_of_valid (de : String → ℝ)
    (ills : List String) :
    (compute_metamerism_index de ills).metamerism_index =
      10 * pyListStd ((ills.filter fun n => whitePointNames.contains n).map de) ∧
    ((ills.filter fun n => whitePointNames.contains n).length < 2 →
      (compute_metamerism_index de ills).metamerism_index = 0) := by
  constructor
  · simp only [compute_metamerism_index]
    rcases hv : (ills.filter fun n => whitePointNames.contains n).map de with
      _ | ⟨a, t⟩
    · simp [hv, pyListStd_nil]
    · simp [hv, mul_comm]
  · intro hlen
    simp only [compute_metamerism_index]
    rcases hv : ills.filter fun n => whitePointNames.contains n with
      _ | ⟨a, _ | ⟨b, t⟩⟩
    · simp
    · simp [pyListStd_singleton]
    · exfalso
      rw [hv] at hlen
      simp only [List.length_cons] at hlen
      omega

/-- Witness for C4 with one recognized and one unknown illuminant. -/
theorem metamerism_index_ten_std_of_valid_witness :
    ((["D65", "XX"].filter fun n => whitePointNames.contains n).length < 2) ∧
    (compute_metamerism_index (fun _ => 2) ["D65", "XX"]).metamerism_index =
      10 * pyListStd ((["D65", "XX"].filter fun n => whitePointNames.contains n).map
        fun _ => (2 : ℝ)) ∧
    (compute_metamerism_index (fun _ => 2) ["D65", "XX"]).metamerism_index = 0 :=
  ⟨by decide,
   (metamerism_index_ten_std_of_valid (fun _ => 2) ["D65", "XX"]).1,
   (metamerism_index_ten_std_of_valid (fun _ => 2) ["D65", "XX"]).2 (by decide)⟩

/-- Folding the Python max step from a seeded best yields the first
element attaining the maximum of the seed and the list: everything
strictly before it is strictly smaller, everything after it no larger. -/
lemma pyMax_go (l : List (String × ℝ)) : ∀ b : String × ℝ,
    ∃ p l1 l2, List.foldl pyMaxStep (some b) l = some p ∧
      b :: l = l1 ++ p :: l2 ∧
      (∀ q ∈ l1, q.2 < p.2) ∧ (∀ q ∈ l2, q.2 ≤ p.2) := by
  induction l with
  | nil => exact fun b => ⟨b, [], [], rfl, rfl, by simp, by simp⟩
  | cons x xs ih =>
    intro b
    by_cases hbx : b.2 < x.2
    · obtain ⟨p, l1, l2, hf, hd, h1, h2⟩ := ih x
      have hstep : List.foldl pyMaxStep (some b) (x :: xs) =
          List.foldl pyMaxStep (some x) xs := by
        simp [pyMaxStep, hbx]
      have hxp : x.2 ≤ p.2 := by
        cases l1 with
        | nil =>
          rw [List.nil_append] at hd
          rw [(List.cons.inj hd).1]
        | cons a t =>
          rw [List.cons_append] at hd
          rw [(List.cons.inj hd).1]
          exact le_of_lt (h1 a (List.mem_cons_self a t))
      refine ⟨p, b :: l1, l2, hstep.trans hf, ?_, ?_, h2⟩
      · rw [List.cons_append, ← hd]
      · intro q hq
        rcases List.mem_cons.mp hq with rfl | hq'
        · exact lt_of_lt_of_le hbx hxp
        · exact h1 q hq'
    · obtain ⟨p, l1, l2, hf, hd, h1, h2⟩ := ih b
      have hxb : x.2 ≤ b.2 := not_lt.mp hbx
      have hstep : List.foldl pyMaxStep (some b) (x :: xs) =
          List.foldl pyMaxStep (some b) xs := by
        simp [pyMaxStep, hbx]
      cases l1 with
      | nil =>
        rw [List.nil_append] at hd
        obtain ⟨hbp, hxsl⟩ := List.cons.inj hd
        refine ⟨p, [], x :: l2, hstep.trans hf, ?_, by simp, ?_⟩
        · rw [List.nil_append, ← hbp, hxsl]
        · intro q hq
          rcases List.mem_cons.mp hq with rfl | hq'
          · rw [← hbp]
            exact hxb
          · exact h2 q hq'
      | cons a t =>
        rw [List.cons_append] at hd
        obtain ⟨hba, hxs⟩ := List.cons.inj hd
        have hbp : b.2 < p.2 := by
          rw [hba]
          exact h1 a (List.mem_cons_self a t)
        refine ⟨p, b :: x :: t, l2, hstep.trans hf, ?_, ?_, h2⟩
        · rw [hxs, hba]
          rfl
        · intro q hq
          rcases List.mem_cons.mp hq with rfl | hq'
          · exact hbp
          rcases List.mem_cons.mp hq' with rfl | hq''
          · exact lt_of_le_of_lt hxb hbp
          · exact h1 q (List.mem_cons_of_mem a hq'')

/-- On a nonempty list, the Python max returns the first element
attaining the maximal ΔE. -/
lemma pyMaxByDe_spec (l : List (String × ℝ)) (hne : l ≠ []) :
    ∃ p l1 l2, pyMaxByDe l = some p ∧ l = l1 ++ p :: l2 ∧
      (∀ q ∈ l1, q.2 < p.2) ∧ (∀ q ∈ l2, q.2 ≤ p.2) := by
  cases l with
  | nil => exact absurd rfl hne
  | cons y ys =>
    obtain ⟨p, l1, l2, hf, hd, h1, h2⟩ := pyMax_go ys y
    exact ⟨p, l1, l2, hf, hd, h1, h2⟩

/-- C5: the worst case returned by `compute_metamerism_index` is `None`
with zero valid illuminants; with at least one, it is the pair with the
maximal ΔE, the first occurrence in input order winning ties: in the
recognized-illuminant pair list, every pair before the returned one has
strictly smaller ΔE and every pair after it has no larger ΔE. -/
theorem worst_case_first_max (de : String → ℝ) (ills : List String) :
    ((ills.filter fun n => whitePointNames.contains n) = [] →
      (compute_metamerism_index de ills).worst_case = none) ∧
    ((ills.filter fun n => whitePointNames.contains n) ≠ [] →
      ∃ p l1 l2,
        (compute_metamerism_index de ills).worst_case = some p ∧
        ((ills.filter fun n => whitePointNames.contains n).map
            fun n => (n, de n)) = l1 ++ p :: l2 ∧
        (∀ q ∈ l1, q.2 < p.2) ∧ (∀ q ∈ l2, q.2 ≤ p.2)) := by
  have hw : (compute_metamerism_index de ills).worst_case =
      pyMaxByDe ((ills.filter fun n => whitePointNames.contains n).map
        fun n => (n, de n)) := rfl
  constructor
  · intro hnil
    rw [hw, hnil]
    rfl
  · intro hne
    have hmapne : ((ills.filter fun n => whitePointNames.contains n).map
        fun n => (n, de n)) ≠ [] := by
      simpa using hne
    obtain ⟨p, l1, l2, hf, hd, h1, h2⟩ := pyMaxByDe_spec _ hmapne
    exact ⟨p, l1, l2, hw.trans hf, hd, h1, h2⟩

/-- Witness for C5 with a ΔE tie between two recognized illuminants and
one unknown name; the first recognized illuminant wins. -/
theorem worst_case_first_max_witness :
    ((["D65", "XX", "A"].filter fun n => whitePointNames.contains n) ≠ []) ∧
    ∃ p l1 l2,
      (compute_metamerism_index (fun _ => 1) ["D65", "XX", "A"]).worst_case =
        some p ∧
      ((["D65", "XX", "A"].filter fun n => whitePointNames.contains n).map
          fun n => (n, (fun _ => (1 : ℝ)) n)) = l1 ++ p :: l2 ∧
      (∀ q ∈ l1, q.2 < p.2) ∧ (∀ q ∈ l2, q.2 ≤ p.2) :=
  ⟨by decide,
   (worst_case_first_max (fun _ => 1) ["D65", "XX", "A"]).2 (by decide)⟩

end TextileQC
